import Mathlib

set_option linter.unusedVariables false
set_option linter.unnecessarySeqFocus false

namespace App

/-- Python value universe for the shapes that `_bbox_to_list` and the
provenance resolver inspect: `none` is Python None, `num` a value on which
`float()` succeeds (ints and floats, modelled exactly as rationals), `str`
a non-numeric string (on which `float()` raises ValueError), `list` and
`tuple` the two sequence types, `dict` a mapping given as an association
list, and `obj` an attribute-bearing object together with the item list
its iteration yields when it is iterable (`Option.none` when it is not). -/
inductive PyVal where
  | none
  | num (q : Rat)
  | str (s : String)
  | list (xs : List PyVal)
  | tuple (xs : List PyVal)
  | dict (entries : List (PyVal × PyVal))
  | obj (attrs : List (String × PyVal)) (iter : Option (List PyVal))

/-- Python truthiness for the modelled values. -/
def PyVal.truthy : PyVal → Bool
  | .none => false
  | .num q => decide (q ≠ 0)
  | .str s => decide (s ≠ "")
  | .list xs => !xs.isEmpty
  | .tuple xs => !xs.isEmpty
  | .dict es => !es.isEmpty
  | .obj _ _ => true

/-- Python `a or b`: the left value when it is truthy, the right one otherwise. -/
def pyOr (a b : PyVal) : PyVal := if a.truthy then a else b

/-- Python `float(v)`: in the model it succeeds exactly on numeric values
(non-numeric strings, None, containers all raise TypeError or ValueError,
which the result `Option.none` represents). -/
def pyFloat : PyVal → Option Rat
  | .num q => some q
  | _ => Option.none

/-- Integer part of a rational, truncating toward zero, matching Python
`int()` applied to a float (the denominator is positive). -/
def ratTrunc (q : Rat) : Int := q.num.tdiv q.den

/-- Python `int(v)`, raising TypeError or ValueError on non-numeric values. -/
def pyInt : PyVal → Except Unit Int
  | .num q => .ok (ratTrunc q)
  | _ => .error ()

/-- Total variant of `pyInt`, absent where it would raise. -/
def pyIntO : PyVal → Option Int
  | .num q => some (ratTrunc q)
  | _ => Option.none

/-- Key test used for Python `k in mapping` and `mapping[k]` where `k` is a
string literal: a stored key equals it only when it is that very string. -/
def keyIs (k : PyVal) (s : String) : Bool :=
  match k with
  | .str t => t == s
  | _ => false

/-- Membership `s in mapping` for a string literal key. -/
def dictHas (es : List (PyVal × PyVal)) (s : String) : Bool :=
  es.any (fun kv => keyIs kv.1 s)

/-- Lookup `mapping.get(s, dflt)` / `mapping[s]` for a string literal key. -/
def dictGetD (es : List (PyVal × PyVal)) (s : String) (dflt : PyVal) : PyVal :=
  match es.find? (fun kv => keyIs kv.1 s) with
  | some kv => kv.2
  | Option.none => dflt

/-- Attribute lookup `getattr(v, a, dflt)`: only `obj` values expose the
probed attributes; sequences, mappings and scalars fall to the default. -/
def PyVal.getattrD (v : PyVal) (a : String) (dflt : PyVal) : PyVal :=
  match v with
  | .obj attrs _ =>
    match attrs.find? (fun kv => kv.1 == a) with
    | some kv => kv.2
    | Option.none => dflt
  | _ => dflt

/-- Attribute presence `hasattr(v, a)` for the probed coordinate names. -/
def PyVal.hasattrB (v : PyVal) (a : String) : Bool :=
  match v with
  | .obj attrs _ => attrs.any (fun kv => kv.1 == a)
  | _ => false

/-- Item list produced by iterating the value when it has an iterator:
sequences yield their items, mappings their keys, strings their characters
and `obj` values the list recorded for them. -/
def PyVal.iterList : PyVal → Option (List PyVal)
  | .list xs => some xs
  | .tuple xs => some xs
  | .dict es => some (es.map (fun kv => kv.1))
  | .str s => some (s.toList.map (fun c => .str (String.mk [c])))
  | .obj _ (some xs) => some xs
  | _ => Option.none

/-- Whether the value is a Python `str` or `bytes`. -/
def PyVal.isStrLike : PyVal → Bool
  | .str _ => true
  | _ => false

/-- Whether the value is Python None. -/
def PyVal.isNone : PyVal → Bool
  | .none => true
  | _ => false

/-- The three coordinate naming conventions probed by `_bbox_to_list`. -/
def conventions : List (List String) :=
  [["left", "top", "right", "bottom"], ["l", "t", "r", "b"], ["x0", "y0", "x1", "y1"]]

/-- Sequence branch guard of `_bbox_to_list`:
`isinstance(bbox, (list, tuple)) and len(bbox) >= 4`. -/
def seq4 : PyVal → Option (List PyVal)
  | .list xs => if 4 ≤ xs.length then some xs else Option.none
  | .tuple xs => if 4 ≤ xs.length then some xs else Option.none
  | _ => Option.none

/-- Mapping branch of `_bbox_to_list` (lines 32-38): the first key group all
of whose keys are present and whose four lookups all coerce wins; a coercion
failure inside the comprehension is caught and the next group is tried. -/
def tryDictConvs (es : List (PyVal × PyVal)) : List (List String) → Option (List Rat)
  | [] => Option.none
  | ks :: rest =>
    if ks.all (dictHas es) then
      match ks.mapM (fun k => pyFloat (dictGetD es k .none)) with
      | some fs => some fs
      | Option.none => tryDictConvs es rest
    else tryDictConvs es rest

/-- Attribute collection loop of `_bbox_to_list` for one name group (lines
46-52): a missing attribute is skipped (the loop continues), a present
attribute failing float coercion stops the loop, keeping the coordinates
collected so far. -/
def collectAttrs (v : PyVal) : List String → List Rat
  | [] => []
  | a :: rest =>
    if v.hasattrB a then
      match pyFloat (v.getattrD a .none) with
      | some f => f :: collectAttrs v rest
      | Option.none => []
    else collectAttrs v rest

/-- Attribute branch of `_bbox_to_list` (lines 41-54): the first group whose
collected coordinates number exactly four wins. -/
def tryAttrConvs (v : PyVal) : List (List String) → Option (List Rat)
  | [] => Option.none
  | ks :: rest =>
    if (collectAttrs v ks).length = 4 then some (collectAttrs v ks)
    else tryAttrConvs v rest

/-- Shallow embedding of `_bbox_to_list` (src/app/main.py lines 26-64). The
result is `Except`-valued because the sequence branch (line 31) coerces its
first four entries outside any try/except, so a failing coercion there
propagates (`.error ()`), while every coercion failure in the mapping,
attribute and iterable branches is caught locally and degrades to absent. -/
def bbox_to_list (bbox : PyVal) : Except Unit (Option (List Rat)) :=
  match bbox with
  | .none => .ok Option.none
  | _ =>
    match seq4 bbox with
    | some xs =>
      match pyFloat (xs.getD 0 .none), pyFloat (xs.getD 1 .none),
            pyFloat (xs.getD 2 .none), pyFloat (xs.getD 3 .none) with
      | some a, some b, some c, some d => .ok (some [a, b, c, d])
      | _, _, _, _ => .error ()
    | Option.none =>
      let dictHit : Option (List Rat) :=
        match bbox with
        | .dict es => tryDictConvs es conventions
        | _ => Option.none
      match dictHit with
      | some r => .ok (some r)
      | Option.none =>
        match tryAttrConvs bbox conventions with
        | some r => .ok (some r)
        | Option.none =>
          match bbox.iterList, bbox.isStrLike with
          | some xs, false =>
            if (xs.take 4).length = 4 then
              match (xs.take 4).mapM pyFloat with
              | some fs => .ok (some fs)
              | Option.none => .ok Option.none
            else .ok Option.none
          | _, _ => .ok Option.none

/-- Total variant of `_bbox_to_list` following the wording of the spec,
which requires every coercion failure to degrade to absent instead of
propagating: it agrees with `bbox_to_list` wherever the latter does not
raise, and is absent where it raises. -/
def bbox_to_list_total (v : PyVal) : Option (List Rat) :=
  match bbox_to_list v with
  | .ok r => r
  | .error _ => Option.none

/-- Page value read inside one provenance record (line 75):
`getattr(p, "page_no", None) or getattr(p, "page", None)`. -/
def recPageVal (p : PyVal) : PyVal :=
  pyOr (p.getattrD "page_no" .none) (p.getattrD "page" .none)

/-- Bbox value read inside one provenance record (lines 76-80):
`getattr(p, "bbox", None) or getattr(p, "bounding_box", None)
or getattr(p, "box", None)`. -/
def recBboxVal (p : PyVal) : PyVal :=
  pyOr (pyOr (p.getattrD "bbox" .none) (p.getattrD "bounding_box" .none))
    (p.getattrD "box" .none)

/-- Element kind as decided by the isinstance checks in `_extract_objects`
(TableItem first, then PictureItem, everything else a text block). -/
inductive EKind where
  | table
  | picture
  | other
deriving DecidableEq

/-- Document element: the attributes the code reads off it (prov, the three
bbox attribute names, category, text, content, caption), together with the
outcome of calling `export_to_markdown(doc=doc)` when that attribute exists
and is callable (`Option.none` models an absent or non-callable attribute,
`Except.error` a call that throws) and the outcome of the picture-segment
rendering (`get_image(doc)` followed by PNG encoding and base64, abstracted
to its final base64 string, `Except.error` when any step throws, inner
`Option.none` when `get_image` returns None). -/
structure Element where
  kind : EKind
  attrs : List (String × PyVal)
  export_to_markdown : Option (Except Unit String) := Option.none
  get_image : Option (Except Unit (Option String)) := Option.none

/-- Attribute lookup `getattr(element, a, dflt)` on a document element. -/
def elGetattrD (e : Element) (a : String) (dflt : PyVal) : PyVal :=
  match e.attrs.find? (fun kv => kv.1 == a) with
  | some kv => kv.2
  | Option.none => dflt

/-- Loop over provenance records in `_extract_page_and_bbox` (lines 74-83):
`some result` when a record triggers the early return (its normalized bbox
or its page value is non-absent), `Option.none` when the loop falls
through. `int(page_no)` on a truthy non-numeric value, and the uncaught
coercion inside `_bbox_to_list`, propagate as `.error`. -/
def scanProv : List PyVal → Except Unit (Option (Option Int × Option (List Rat)))
  | [] => .ok Option.none
  | p :: rest =>
    match bbox_to_list (recBboxVal p) with
    | .error err => .error err
    | .ok bl =>
      match bl.isSome || !(recPageVal p).isNone with
      | true =>
        match (recPageVal p).isNone with
        | true => .ok (some (Option.none, bl))
        | false =>
          match pyInt (recPageVal p) with
          | .error err => .error err
          | .ok i => .ok (some (some i, bl))
      | false => scanProv rest

/-- Element-level fallback of `_extract_page_and_bbox` (lines 86-90): the
three bbox attribute names are normalized in turn and the first non-absent
result is returned with an absent page. -/
def codeFallback (e : Element) : Except Unit (Option Int × Option (List Rat)) :=
  match bbox_to_list (elGetattrD e "bbox" .none) with
  | .error err => .error err
  | .ok (some l) => .ok (Option.none, some l)
  | .ok Option.none =>
    match bbox_to_list (elGetattrD e "bounding_box" .none) with
    | .error err => .error err
    | .ok (some l) => .ok (Option.none, some l)
    | .ok Option.none =>
      match bbox_to_list (elGetattrD e "box" .none) with
      | .error err => .error err
      | .ok (some l) => .ok (Option.none, some l)
      | .ok Option.none => .ok (Option.none, Option.none)

/-- Shallow embedding of `_extract_page_and_bbox` (lines 67-90). The
provenance list is scanned only when the prov attribute is a list; an empty
list runs the loop zero times and therefore also reaches the fallback. -/
def extract_page_and_bbox (e : Element) : Except Unit (Option Int × Option (List Rat)) :=
  match elGetattrD e "prov" .none with
  | .list ps =>
    match scanProv ps with
    | .error err => .error err
    | .ok (some r) => .ok r
    | .ok Option.none => codeFallback e
  | _ => codeFallback e

/-- Whether a provenance record yields a result, following the claim text:
its page value or its normalized bbox is non-absent. -/
def specRecYields (p : PyVal) : Bool :=
  (bbox_to_list_total (recBboxVal p)).isSome || !(recPageVal p).isNone

/-- Result the claim attributes to one yielding provenance record: the page
value converted to an integer when non-absent, with the normalized bbox. -/
def specRecResult (p : PyVal) : Option Int × Option (List Rat) :=
  ((if (recPageVal p).isNone then Option.none else pyIntO (recPageVal p)),
    bbox_to_list_total (recBboxVal p))

/-- First non-absent entry of a list of optional values. -/
def firstSome : List (Option α) → Option α
  | [] => Option.none
  | some x :: _ => some x
  | Option.none :: rest => firstSome rest

/-- Element-level fallback as worded by the claim: absent page together with
the first of the three bbox attributes that normalizes successfully. -/
def specFallback (e : Element) : Option Int × Option (List Rat) :=
  (Option.none,
    firstSome [bbox_to_list_total (elGetattrD e "bbox" .none),
      bbox_to_list_total (elGetattrD e "bounding_box" .none),
      bbox_to_list_total (elGetattrD e "box" .none)])

/-- Resolver as worded by claim C3: the result of the first provenance
record for which the page value or the normalized bbox is non-absent, no
merging across records; when no record yields anything (including an
absent, non-list or empty provenance), the element-level bbox fallback. -/
def resolveSpec (e : Element) : Option Int × Option (List Rat) :=
  match elGetattrD e "prov" .none with
  | .list ps =>
    match ps.find? specRecYields with
    | some p => specRecResult p
    | Option.none => specFallback e
  | _ => specFallback e

/-- Page field selection as claim C8 words it: the value of the first of
the two field names (page_no, then page) that is non-null. -/
def specC8PageVal (p : PyVal) : PyVal :=
  if (p.getattrD "page_no" .none).isNone then p.getattrD "page" .none
  else p.getattrD "page_no" .none

/-- Bbox field selection as claim C8 words it: the value of the first of
the three field names (bbox, bounding_box, box) that is non-null. -/
def specC8BboxVal (p : PyVal) : PyVal :=
  if !(p.getattrD "bbox" .none).isNone then p.getattrD "bbox" .none
  else if !(p.getattrD "bounding_box" .none).isNone then p.getattrD "bounding_box" .none
  else p.getattrD "box" .none

/-- Element with three provenance records of which only the second yields a
usable page and bbox, used to exercise first-match-wins in the resolver. -/
def exampleProvElement : Element :=
  ⟨.other,
    [("prov", .list
      [.obj [] Option.none,
       .obj [("page_no", .num 2), ("bbox", .list [.num 1, .num 2, .num 3, .num 4])] Option.none,
       .obj [("page_no", .num 9)] Option.none])],
    Option.none, Option.none⟩

/-- Python `str(v)` as used on the classifier's kind value: exact on
strings; other reprs are abstracted (the classifier only applies it to
the literal kind strings or to the category attribute, a string). -/
def pyStr : PyVal → String
  | .str s => s
  | .none => "None"
  | _ => ""

/-- Floor of a rational: flooring integer division of the numerator by the
(positive) denominator. -/
def ratFloor (q : Rat) : Int := q.num.fdiv q.den

/-- Round-half-to-even of a rational to an integer, matching Python
`round` on the idealized (exact rational) floats. -/
def rndHalfEven (q : Rat) : Int :=
  let f := ratFloor q
  if q - (f : Rat) < 1 / 2 then f
  else if (1 : Rat) / 2 < q - (f : Rat) then f + 1
  else if f % 2 = 0 then f else f + 1

/-- Python `round(q, n)` on the idealized rational floats. -/
def pyRound (n : Nat) (q : Rat) : Rat :=
  ((rndHalfEven (q * 10 ^ n) : Int) : Rat) / (10 ^ n : Rat)

/-- Rounding to one decimal digit (object bbox precision). -/
def round1 (q : Rat) : Rat := pyRound 1 q

/-- Rounding to four decimal digits (overlay bbox precision). -/
def round4 (q : Rat) : Rat := pyRound 4 q

/-- Rounding applied when a bbox is placed into an extracted object (lines
151-153): `if bbox and len(bbox) >= 4`, round the first four coordinates
to one decimal digit, otherwise leave the field absent. -/
def round1List (bb : Option (List Rat)) : Option (List Rat) :=
  match bb with
  | some l => if l ≠ [] ∧ 4 ≤ l.length then some ((l.take 4).map round1) else Option.none
  | Option.none => Option.none

/-- Stable output unit of the extractor: the dictionary built per element
(type, page, bbox, text, optional image_base64). The page and text entries
hold arbitrary Python values because the dictionary-export fallback stores
raw block fields there. -/
structure ExObj where
  type : PyVal
  page : PyVal
  bbox : Option (List Rat)
  text : PyVal
  image_base64 : Option String

/-- Table text: `export_to_markdown(doc=doc)` when the attribute is
callable, empty string when it is absent or the call throws (lines 134-141). -/
def tableText (e : Element) : String :=
  match e.export_to_markdown with
  | some (.ok s) => s
  | some (.error _) => ""
  | Option.none => ""

/-- Embedding of `_picture_to_base64` (lines 103-117): absent when
`get_image` is not callable, returns None, or any step throws. -/
def pictureB64 (e : Element) : Option String :=
  match e.get_image with
  | some (.ok r) => r
  | some (.error _) => Option.none
  | Option.none => Option.none

/-- Per-element body of the `_extract_objects` loop (lines 129-163):
resolve page and bbox, classify the element, round the bbox, and attach
the picture segment for pictures; raises whatever the resolver raises. -/
def objOf (e : Element) : Except Unit ExObj :=
  match extract_page_and_bbox e with
  | .error err => .error err
  | .ok (pg, bb) =>
    let kt : PyVal × PyVal :=
      match e.kind with
      | .table => (.str "table", .str (tableText e))
      | .picture => (.str "image", pyOr (elGetattrD e "caption" (.str "")) (.str ""))
      | .other =>
        (.str (pyStr (pyOr (elGetattrD e "category" .none) (.str "text"))),
         pyOr (pyOr (elGetattrD e "text" .none) (elGetattrD e "content" .none)) (.str ""))
    let img : Option String :=
      match e.kind with
      | .picture =>
        match pictureB64 e with
        | some s => if s ≠ "" then some s else Option.none
        | Option.none => Option.none
      | _ => Option.none
    .ok { type := kt.1,
          page := (match pg with | some i => .num (i : Rat) | Option.none => .none),
          bbox := round1List bb, text := kt.2, image_base64 := img }

/-- Error-propagating map over a list, modelling a Python for-loop whose
body may raise. -/
def mapME (f : α → Except Unit β) : List α → Except Unit (List β)
  | [] => .ok []
  | a :: l =>
    match f a with
    | .error err => .error err
    | .ok b =>
      match mapME f l with
      | .error err => .error err
      | .ok bs => .ok (b :: bs)

/-- Python `block.get(k, dflt)`: raises AttributeError when the block is
not a mapping. -/
def blockGet (b : PyVal) (k : String) (dflt : PyVal) : Except Unit PyVal :=
  match b with
  | .dict es => .ok (dictGetD es k dflt)
  | _ => .error ()

/-- One block of the dictionary-export fallback (lines 169-183). -/
def fallbackObj (b : PyVal) : Except Unit ExObj :=
  match blockGet b "bbox" .none with
  | .error err => .error err
  | .ok raw_bbox =>
    let brE : Except Unit (Option (List Rat)) :=
      match raw_bbox with
      | .none => .ok Option.none
      | _ =>
        match bbox_to_list raw_bbox with
        | .error err => .error err
        | .ok bl => .ok (round1List bl)
    match brE with
    | .error err => .error err
    | .ok br =>
      match blockGet b "category" .none, blockGet b "type" .none,
            blockGet b "page_no" .none, blockGet b "page" .none,
            blockGet b "text" (.str "") with
      | .ok cat, .ok ty, .ok pn, .ok pg, .ok tx =>
        .ok { type := pyOr (pyOr cat ty) (.str "unknown"),
              page := pyOr pn pg, bbox := br, text := tx,
              image_base64 := Option.none }
      | _, _, _, _, _ => .error ()

/-- Dictionary-export fallback of `_extract_objects` (lines 166-183):
read blocks under the "blocks" or "elements" key (defaulting to an empty
list), iterate them, and map each into an object; iterating a non-iterable
blocks value raises. -/
def fallbackObjs (data : List (PyVal × PyVal)) : Except Unit (List ExObj) :=
  let blocksVal := pyOr (pyOr (dictGetD data "blocks" .none) (dictGetD data "elements" .none)) (.list [])
  match blocksVal.iterList with
  | some bs => mapME fallbackObj bs
  | Option.none => .error ()

/-- Parsed document as consumed by `_extract_objects`: the element list
produced by `iterate_items` when the document has it (levels are ignored by
the code), the `elements` attribute used otherwise (default empty list),
and the dictionary returned by `export_to_dict` when that attribute exists. -/
structure Doc where
  iterate_items : Option (List Element)
  elements : List Element := []
  export_to_dict : Option (List (PyVal × PyVal)) := Option.none

/-- Traversal of `_iterate_items` (lines 93-100). -/
def docItems (d : Doc) : List Element :=
  match d.iterate_items with
  | some items => items
  | Option.none => d.elements

/-- Shallow embedding of `_extract_objects` (lines 120-185): one object per
traversed element, in traversal order; when the loop appended nothing, the
dictionary-export fallback runs instead (when available). -/
def extract_objects (d : Doc) : Except Unit (List ExObj) :=
  match mapME objOf (docItems d) with
  | .error err => .error err
  | .ok objects =>
    if objects.isEmpty then
      match d.export_to_dict with
      | some data => fallbackObjs data
      | Option.none => .ok objects
    else .ok objects

/-- Provenance record placing an element on page 1 with a bbox. -/
def provOn1 (l t r b : Rat) : PyVal :=
  .obj [("page_no", .num 1), ("bbox", .list [.num l, .num t, .num r, .num b])] Option.none

/-- Table element placed on page 1 whose markdown export succeeds. -/
def exTable : Element :=
  { kind := .table, attrs := [("prov", .list [provOn1 10 20 30 40])],
    export_to_markdown := some (.ok "| a |") }

/-- Picture element placed on page 1 with a caption and a rendered segment. -/
def exPicture : Element :=
  { kind := .picture, attrs := [("prov", .list [provOn1 50 60 70 80]), ("caption", .str "cap")],
    get_image := some (.ok (some "png64")) }

/-- Paragraph element placed on page 1 carrying plain text. -/
def exPara : Element :=
  { kind := .other, attrs := [("prov", .list [provOn1 1 2 3 4]), ("text", .str "hello")] }

/-- Document with one table, one picture and one paragraph, in that order. -/
def exampleTriDoc : Doc :=
  { iterate_items := some [exTable, exPicture, exPara] }

/-- Document whose traversal yields no elements but whose dictionary export
contains one block: the fallback emits an object with no matching element. -/
def exampleEmptyDoc : Doc :=
  { iterate_items := some [],
    export_to_dict := some [(.str "blocks", .list [.dict []])] }

/-- Classification asserted by claim C5 for one element and the object
emitted for it: tables get type "table" and the markdown text, pictures get
type "image" and the caption (or empty), everything else gets the category
tag (or "text") and its text or content field (or empty). -/
def classifiedAs (e : Element) (o : ExObj) : Prop :=
  (e.kind = .table → o.type = .str "table" ∧ o.text = .str (tableText e)) ∧
  (e.kind = .picture → o.type = .str "image" ∧
    o.text = pyOr (elGetattrD e "caption" (.str "")) (.str "")) ∧
  (e.kind = .other →
    o.type = .str (pyStr (pyOr (elGetattrD e "category" .none) (.str "text"))) ∧
    o.text = pyOr (pyOr (elGetattrD e "text" .none) (elGetattrD e "content" .none)) (.str ""))

/-- Object extracted for `exTable`. -/
def exObjT : ExObj :=
  { type := .str "table", page := .num 1, bbox := some [10, 20, 30, 40],
    text := .str "| a |", image_base64 := Option.none }

/-- Object extracted for `exPicture`. -/
def exObjP : ExObj :=
  { type := .str "image", page := .num 1, bbox := some [50, 60, 70, 80],
    text := .str "cap", image_base64 := some "png64" }

/-- Object extracted for `exPara`. -/
def exObjO : ExObj :=
  { type := .str "text", page := .num 1, bbox := some [1, 2, 3, 4],
    text := .str "hello", image_base64 := Option.none }

/-- The three objects extracted from `exampleTriDoc`. -/
def exampleTriObjs : List ExObj := [exObjT, exObjP, exObjO]

/-- Overlay bbox conversion inside `convert_pdf` (lines 222-235): absent
when the stored bbox is falsy or shorter than four entries; otherwise the
list [x1, y1, x2, y2] with x1 = left/w, y1 = 1 - bottom/h, x2 = right/w,
y2 = 1 - top/h, each rounded to four decimal digits. -/
def overlay_bbox (w_pt h_pt : Rat) (bb : Option (List Rat)) : Option (List Rat) :=
  match bb with
  | Option.none => Option.none
  | some l =>
    if l = [] ∨ l.length < 4 then Option.none
    else some [round4 (l.getD 0 0 / w_pt), round4 (1 - l.getD 3 0 / h_pt),
               round4 (l.getD 2 0 / w_pt), round4 (1 - l.getD 1 0 / h_pt)]

/-- One rasterized page as returned by the PDF rasterizer and encoded to
PNG and base64 (the encoding is abstracted to its result string). -/
structure PageImg where
  w_px : Nat
  h_px : Nat
  png_b64 : String

/-- Extracted object augmented with its normalized overlay bbox. -/
structure OverObj where
  obj : ExObj
  bbox_norm : Option (List Rat)

/-- One entry of the pages list in the response. -/
structure PageRender where
  page : Nat
  image_base64 : String
  image_width_px : Nat
  image_height_px : Nat
  elements : List OverObj

/-- Python equality between an object's page entry and the integer page
number of the loop (`obj.get("page") != page_num`). -/
def pyEqNum (v : PyVal) (n : Nat) : Bool :=
  match v with
  | .num q => decide (q = (n : Rat))
  | _ => false

/-- Body of the per-page loop in `convert_pdf` (lines 213-242): point sizes
are pixels times 72 over the fixed 150 DPI, and each object on the page is
carried with its overlay bbox. -/
def buildPage (objects : List ExObj) (pnum : Nat) (img : PageImg) : PageRender :=
  let w_pt : Rat := (img.w_px : Rat) * 72 / 150
  let h_pt : Rat := (img.h_px : Rat) * 72 / 150
  { page := pnum, image_base64 := img.png_b64, image_width_px := img.w_px,
    image_height_px := img.h_px,
    elements := (objects.filter (fun o => pyEqNum o.page pnum)).map
      (fun o => ⟨o, overlay_bbox w_pt h_pt o.bbox⟩) }

/-- Page list built by `convert_pdf` (lines 210-244): the whole loop is
wrapped in a try whose handler is `pass`, so a failing rasterization call
leaves the list empty. -/
def build_pages (raster : Except Unit (List PageImg)) (objects : List ExObj) :
    List PageRender :=
  match raster with
  | .error _ => []
  | .ok imgs => imgs.enum.map (fun p => buildPage objects (p.1 + 1) p.2)

/-- Response payload assembled at the end of `convert_pdf` (line 246). -/
structure ConvertResult where
  text : String
  objects : List ExObj
  pages : List PageRender
  num_pages : Nat

/-- Tail of `convert_pdf` (lines 206-246) over the already-extracted text
and objects and the outcome of the rasterization call. -/
def convert_result (text : String) (objects : List ExObj)
    (raster : Except Unit (List PageImg)) : ConvertResult :=
  let pages := build_pages raster objects
  { text := text, objects := objects, pages := pages, num_pages := pages.length }

/-- HTTP response of the `/parse` endpoint: a 200 payload or an error body. -/
inductive Resp where
  | ok (filename : String) (result : ConvertResult)
  | errResp (status : Nat) (error : String)

/-- Environment of one `/parse` request: the declared content-type, the
upload's filename, whether reading the upload and writing it to the temp
file succeed (with the raised message otherwise), and the outcome of
`convert_pdf` on the written file. -/
structure ParseEnv where
  content_type : String
  filename : String
  readOk : Bool
  readErr : String
  convert : Except String ConvertResult

/-- Filesystem and control state observed after a `/parse` request: whether
a temporary file was created, whether it still exists, whether `tmp_path`
was bound in locals, and whether the conversion pipeline was invoked. -/
structure ParseState where
  tmpCreated : Bool
  tmpExists : Bool
  tmpBound : Bool
  converterInvoked : Bool

/-- Finally block of `parse_pdf` (lines 285-287): the deletion runs only
when `tmp_path` is in locals and the file exists, and `missing_ok=True`
makes it total. -/
def finallyCleanup (s : ParseState) : ParseState :=
  if s.tmpBound && s.tmpExists then { s with tmpExists := false } else s

/-- Shallow embedding of the `parse_pdf` endpoint (lines 264-287). The
temp file is created by `NamedTemporaryFile(delete=False)` before the
upload is read; when reading or writing the upload raises, the with-block
exits with `tmp_path` never bound, the handler returns 500, and the finally
block skips deletion, leaving the file in place. -/
def parse_pdf (env : ParseEnv) : Resp × ParseState :=
  if env.content_type ≠ "application/pdf" ∧ env.content_type ≠ "application/octet-stream" then
    (.errResp 400 "File must be a PDF", ⟨false, false, false, false⟩)
  else
    if env.readOk then
      match env.convert with
      | .ok result =>
        (.ok env.filename result, finallyCleanup ⟨true, true, true, true⟩)
      | .error msg =>
        (.errResp 500 ("Failed to process PDF: " ++ msg), finallyCleanup ⟨true, true, true, true⟩)
    else
      (.errResp 500 ("Failed to process PDF: " ++ env.readErr), finallyCleanup ⟨true, true, false, false⟩)

/-- C1: the spec claims the bounding-box normalizer never raises, but the
sequence branch of `_bbox_to_list` coerces without a try/except: a length-4
list whose second coordinate is non-numeric makes the coercion error
propagate out of the function instead of degrading to absent. -/
theorem C1_seq_branch_raises :
    bbox_to_list (.list [.num 1, .none, .num 2, .num 3]) = .error () := rfl

/-- C2: for a rectangle with four numeric coordinates, every supported shape
normalizes to the same ordered list of the four coordinates: a list or tuple
of length at least four, a mapping under each of the three key conventions,
an attribute-bearing object under each of the three naming conventions, and
a generic iterable yielding at least four items. -/
theorem C2_shapes_agree (c0 c1 c2 c3 : Rat) (rest restI : List PyVal) :
    bbox_to_list (.list ([.num c0, .num c1, .num c2, .num c3] ++ rest))
      = .ok (some [c0, c1, c2, c3]) ∧
    bbox_to_list (.tuple ([.num c0, .num c1, .num c2, .num c3] ++ rest))
      = .ok (some [c0, c1, c2, c3]) ∧
    bbox_to_list (.dict [(.str "left", .num c0), (.str "top", .num c1),
        (.str "right", .num c2), (.str "bottom", .num c3)])
      = .ok (some [c0, c1, c2, c3]) ∧
    bbox_to_list (.dict [(.str "l", .num c0), (.str "t", .num c1),
        (.str "r", .num c2), (.str "b", .num c3)])
      = .ok (some [c0, c1, c2, c3]) ∧
    bbox_to_list (.dict [(.str "x0", .num c0), (.str "y0", .num c1),
        (.str "x1", .num c2), (.str "y1", .num c3)])
      = .ok (some [c0, c1, c2, c3]) ∧
    bbox_to_list (.obj [("left", .num c0), ("top", .num c1),
        ("right", .num c2), ("bottom", .num c3)] Option.none)
      = .ok (some [c0, c1, c2, c3]) ∧
    bbox_to_list (.obj [("l", .num c0), ("t", .num c1),
        ("r", .num c2), ("b", .num c3)] Option.none)
      = .ok (some [c0, c1, c2, c3]) ∧
    bbox_to_list (.obj [("x0", .num c0), ("y0", .num c1),
        ("x1", .num c2), ("y1", .num c3)] Option.none)
      = .ok (some [c0, c1, c2, c3]) ∧
    bbox_to_list (.obj [] (some ([.num c0, .num c1, .num c2, .num c3] ++ restI)))
      = .ok (some [c0, c1, c2, c3]) := by
  refine ⟨?_, ?_, ?_, ?_, ?_, ?_, ?_, ?_, ?_⟩ <;>
    simp [bbox_to_list, seq4, conventions, tryDictConvs, tryAttrConvs,
      collectAttrs, dictHas, dictGetD, keyIs, pyFloat, PyVal.hasattrB,
      PyVal.getattrD, PyVal.iterList, PyVal.isStrLike, List.mapM,
      List.mapM.loop, List.length_append]

theorem collectAttrs_dict (es : List (PyVal × PyVal)) (ks : List String) :
    collectAttrs (.dict es) ks = [] := by
  induction ks with
  | nil => rfl
  | cons a rest ih => simp [collectAttrs, PyVal.hasattrB, ih]

theorem tryAttrConvs_dict (es : List (PyVal × PyVal)) (convs : List (List String)) :
    tryAttrConvs (.dict es) convs = Option.none := by
  induction convs with
  | nil => rfl
  | cons ks rest ih => simp [tryAttrConvs, collectAttrs_dict, ih]

theorem tryDictConvs_none (es : List (PyVal × PyVal)) (convs : List (List String))
    (h : convs.all (fun ks => !ks.all (dictHas es)) = true) :
    tryDictConvs es convs = Option.none := by
  induction convs with
  | nil => rfl
  | cons ks rest ih =>
    rw [List.all_cons] at h
    simp only [Bool.and_eq_true, Bool.not_eq_true'] at h
    obtain ⟨hk, hr⟩ := h
    simp [tryDictConvs, hk, ih hr]

/-- C10: a mapping whose keys match none of the three key conventions falls
through to the generic-iterable branch, which iterates the mapping's keys:
when the mapping has at least four keys and the first four coerce to float,
those keys are returned as the bbox. -/
theorem C10_dict_iterates_keys (es : List (PyVal × PyVal)) (fs : List Rat)
    (h1 : conventions.all (fun ks => !ks.all (dictHas es)) = true)
    (h2 : ((es.map (fun kv => kv.1)).take 4).length = 4)
    (h3 : ((es.map (fun kv => kv.1)).take 4).mapM pyFloat = some fs) :
    bbox_to_list (.dict es) = .ok (some fs) := by
  have hd := tryDictConvs_none es conventions h1
  have ha := tryAttrConvs_dict es conventions
  rw [List.mapM] at h3
  simp [bbox_to_list, seq4, hd, ha, PyVal.iterList, PyVal.isStrLike, h2, h3]

/-- Concrete instance for C10: the mapping with integer keys 1..4 yields
the key list [1, 2, 3, 4] as its bbox instead of absent. -/
theorem C10_dict_iterates_keys_witness :
    bbox_to_list (.dict [(.num 1, .str "a"), (.num 2, .str "b"),
        (.num 3, .str "c"), (.num 4, .str "d")]) = .ok (some [1, 2, 3, 4]) :=
  C10_dict_iterates_keys _ _ rfl rfl rfl

theorem bbox_total_of_ok {v : PyVal} {r : Option (List Rat)}
    (h : bbox_to_list v = .ok r) : bbox_to_list_total v = r := by
  simp [bbox_to_list_total, h]

theorem pyIntO_of_pyInt {v : PyVal} {i : Int} (h : pyInt v = .ok i) :
    pyIntO v = some i := by
  cases v <;> simp [pyInt] at h <;> simp [pyIntO, h]

theorem scanProv_ok (ps : List PyVal) (o : Option (Option Int × Option (List Rat)))
    (h : scanProv ps = .ok o) :
    o = (ps.find? specRecYields).map specRecResult := by
  induction ps generalizing o with
  | nil =>
    simp [scanProv] at h
    simp [h]
  | cons p rest ih =>
    cases hbl : bbox_to_list (recBboxVal p) with
    | error err =>
      simp only [scanProv, hbl] at h
      exact absurd h (by simp)
    | ok bl =>
      have htot : bbox_to_list_total (recBboxVal p) = bl := bbox_total_of_ok hbl
      have hyield : specRecYields p = (bl.isSome || !(recPageVal p).isNone) := by
        simp [specRecYields, htot]
      simp only [scanProv, hbl] at h
      cases hc : (bl.isSome || !(recPageVal p).isNone) with
      | false =>
        simp only [hc] at h
        rw [List.find?_cons_of_neg _ (by simp [hyield, hc])]
        exact ih o h
      | true =>
        simp only [hc] at h
        rw [List.find?_cons_of_pos _ (by simp [hyield, hc])]
        cases hn : (recPageVal p).isNone with
        | true =>
          simp only [hn] at h
          simp at h
          simp [← h, specRecResult, hn, htot]
        | false =>
          simp only [hn] at h
          cases hi : pyInt (recPageVal p) with
          | error err =>
            simp only [hi] at h
            exact absurd h (by simp)
          | ok i =>
            simp only [hi] at h
            simp at h
            simp [← h, specRecResult, hn, htot, pyIntO_of_pyInt hi]

theorem codeFallback_ok (e : Element) (r : Option Int × Option (List Rat))
    (h : codeFallback e = .ok r) : r = specFallback e := by
  rw [codeFallback] at h
  cases h1 : bbox_to_list (elGetattrD e "bbox" .none) with
  | error err => rw [h1] at h; exact absurd h (by simp)
  | ok b1 =>
    rw [h1] at h
    cases b1 with
    | some l =>
      simp at h
      simp [← h, specFallback, firstSome, bbox_total_of_ok h1]
    | none =>
      cases h2 : bbox_to_list (elGetattrD e "bounding_box" .none) with
      | error err => rw [h2] at h; exact absurd h (by simp)
      | ok b2 =>
        rw [h2] at h
        cases b2 with
        | some l =>
          simp at h
          simp [← h, specFallback, firstSome, bbox_total_of_ok h1, bbox_total_of_ok h2]
        | none =>
          cases h3 : bbox_to_list (elGetattrD e "box" .none) with
          | error err => rw [h3] at h; exact absurd h (by simp)
          | ok b3 =>
            rw [h3] at h
            cases b3 with
            | some l =>
              simp at h
              simp [← h, specFallback, firstSome, bbox_total_of_ok h1,
                bbox_total_of_ok h2, bbox_total_of_ok h3]
            | none =>
              simp at h
              simp [← h, specFallback, firstSome, bbox_total_of_ok h1,
                bbox_total_of_ok h2, bbox_total_of_ok h3]

/-- C3: whenever `_extract_page_and_bbox` returns without raising, its
result is the one described by the claim: the (page, bbox) of the first
provenance record whose page value or normalized bbox is non-absent, with
no merging across records; when no record yields anything (including an
absent or empty provenance list), the element-level bbox fallback under the
three attribute names with an absent page, and (absent, absent) when
nothing resolves. -/
theorem C3_resolver_first_match (e : Element) (r : Option Int × Option (List Rat))
    (h : extract_page_and_bbox e = .ok r) : r = resolveSpec e := by
  rw [extract_page_and_bbox] at h
  rw [resolveSpec]
  cases hp : elGetattrD e "prov" .none with
  | list ps =>
    simp only [hp] at h ⊢
    cases hs : scanProv ps with
    | error err => rw [hs] at h; exact absurd h (by simp)
    | ok o =>
      have ho := scanProv_ok ps o hs
      rw [hs] at h
      cases o with
      | some rr =>
        simp at h
        cases hf : ps.find? specRecYields with
        | some p =>
          rw [hf] at ho
          simp at ho
          rw [← h]
          exact ho
        | none => rw [hf] at ho; exact absurd ho (by simp)
      | none =>
        cases hf : ps.find? specRecYields with
        | some p => rw [hf] at ho; exact absurd ho (by simp)
        | none => exact codeFallback_ok e r h
  | none => simp only [hp] at h ⊢; exact codeFallback_ok e r h
  | num q => simp only [hp] at h ⊢; exact codeFallback_ok e r h
  | str s => simp only [hp] at h ⊢; exact codeFallback_ok e r h
  | tuple xs => simp only [hp] at h ⊢; exact codeFallback_ok e r h
  | dict es => simp only [hp] at h ⊢; exact codeFallback_ok e r h
  | obj attrs iter => simp only [hp] at h ⊢; exact codeFallback_ok e r h

/-- Concrete instance for C3: only the second of three provenance records
yields data, and the resolver returns exactly that record's page and bbox. -/
theorem C3_resolver_first_match_witness :
    extract_page_and_bbox exampleProvElement = .ok (some 2, some [1, 2, 3, 4]) ∧
    ((some 2, some [1, 2, 3, 4]) : Option Int × Option (List Rat))
      = resolveSpec exampleProvElement :=
  ⟨rfl, C3_resolver_first_match exampleProvElement (some 2, some [1, 2, 3, 4]) rfl⟩

/-- C8 counterexample: in a record with page_no = 0 and page = 7 the claim
selects page_no (the first non-null field), but the code's or-chain skips
the falsy 0 and the resolver returns page 7; likewise a non-null empty-list
bbox is skipped in favour of a later bounding_box, unlike the claim. -/
theorem C8_first_nonnull_cex :
    specC8PageVal (.obj [("page_no", .num 0), ("page", .num 7)] Option.none) = .num 0 ∧
    recPageVal (.obj [("page_no", .num 0), ("page", .num 7)] Option.none) = .num 7 ∧
    extract_page_and_bbox
      ⟨.other, [("prov", .list [.obj [("page_no", .num 0), ("page", .num 7)] Option.none])],
        Option.none, Option.none⟩ = .ok (some 7, Option.none) ∧
    specC8BboxVal (.obj [("bbox", .list []),
      ("bounding_box", .list [.num 1, .num 2, .num 3, .num 4])] Option.none) = .list [] ∧
    recBboxVal (.obj [("bbox", .list []),
      ("bounding_box", .list [.num 1, .num 2, .num 3, .num 4])] Option.none)
      = .list [.num 1, .num 2, .num 3, .num 4] ∧
    (0 : Int) ≠ 7 :=
  ⟨rfl, rfl, rfl, rfl, rfl, by decide⟩

/-- C8 amended: within a single provenance record the page is taken from
the first truthy of (page_no, page) — a record with page_no = q1 and
page = q2, both numeric, resolves to trunc q2 when q1 is zero and trunc q1
otherwise — and the bbox from the first truthy of (bbox, bounding_box,
box), so a falsy non-null bbox such as the empty list is skipped in favour
of a later truthy bounding_box. -/
theorem C8_or_chain (q1 q2 a b c d : Rat) :
    extract_page_and_bbox
      ⟨.other, [("prov", .list [.obj [("page_no", .num q1), ("page", .num q2)] Option.none])],
        Option.none, Option.none⟩
      = .ok (some (ratTrunc (if q1 = 0 then q2 else q1)), Option.none) ∧
    extract_page_and_bbox
      ⟨.other, [("prov", .list [.obj [("bbox", .list []),
          ("bounding_box", .list [.num a, .num b, .num c, .num d])] Option.none])],
        Option.none, Option.none⟩
      = .ok (Option.none, some [a, b, c, d]) := by
  constructor
  · by_cases h : q1 = 0 <;>
      simp [extract_page_and_bbox, elGetattrD, scanProv, recPageVal, recBboxVal,
        pyOr, PyVal.truthy, PyVal.getattrD, PyVal.isNone, bbox_to_list, seq4,
        pyInt, pyFloat, h]
  · simp [extract_page_and_bbox, elGetattrD, scanProv, recPageVal, recBboxVal,
      pyOr, PyVal.truthy, PyVal.getattrD, PyVal.isNone, bbox_to_list, seq4,
      pyInt, pyFloat]

theorem mapME_ok_length {α β : Type} {f : α → Except Unit β} {l : List α}
    {bs : List β} (h : mapME f l = .ok bs) : bs.length = l.length := by
  induction l generalizing bs with
  | nil =>
    simp [mapME] at h
    simp [← h]
  | cons a t ih =>
    simp only [mapME] at h
    cases hf : f a with
    | error err => simp only [hf] at h; exact absurd h (by simp)
    | ok b =>
      simp only [hf] at h
      cases ht : mapME f t with
      | error err => simp only [ht] at h; exact absurd h (by simp)
      | ok bs2 =>
        simp only [ht] at h
        simp at h
        simp [← h, ih ht]

theorem mapME_ok_get {α β : Type} {f : α → Except Unit β} {l : List α}
    {bs : List β} (h : mapME f l = .ok bs) :
    ∀ i (hi : i < l.length) (hb : i < bs.length),
      f (l.get ⟨i, hi⟩) = .ok (bs.get ⟨i, hb⟩) := by
  induction l generalizing bs with
  | nil => intro i hi hb; exact absurd hi (by simp)
  | cons a t ih =>
    simp only [mapME] at h
    cases hf : f a with
    | error err => simp only [hf] at h; exact absurd h (by simp)
    | ok b =>
      simp only [hf] at h
      cases ht : mapME f t with
      | error err => simp only [ht] at h; exact absurd h (by simp)
      | ok bs2 =>
        simp only [ht] at h
        simp at h
        subst h
        intro i hi hb
        cases i with
        | zero => simpa using hf
        | succ j =>
          simpa using ih ht j (by simpa using hi) (by simpa using hb)

theorem objOf_classified {e : Element} {o : ExObj} (h : objOf e = .ok o) :
    classifiedAs e o := by
  simp only [objOf] at h
  cases hx : extract_page_and_bbox e with
  | error err => simp only [hx] at h; exact absurd h (by simp)
  | ok pb =>
    obtain ⟨pg, bb⟩ := pb
    simp only [hx] at h
    cases hk : e.kind with
    | table =>
      simp only [hk] at h
      simp at h
      simp [classifiedAs, ← h, hk]
    | picture =>
      simp only [hk] at h
      simp at h
      simp [classifiedAs, ← h, hk]
    | other =>
      simp only [hk] at h
      simp at h
      simp [classifiedAs, ← h, hk]

/-- C5 amended: when the traversal yields at least one element and the
extractor returns without raising, it emits exactly one object per element
in traversal order, each classified as the claim states (tables get type
"table" and the markdown text, pictures type "image" and the caption or
empty string, everything else the category tag or "text" and its text,
content or empty string); a document traversing zero elements instead runs
the dictionary-export fallback, whose objects correspond to exported
blocks, not to elements. -/
theorem C5_extractor_per_element (d : Doc) (os : List ExObj)
    (hne : docItems d ≠ []) (h : extract_objects d = .ok os) :
    os.length = (docItems d).length ∧
    ∀ i (hi : i < (docItems d).length) (ho : i < os.length),
      classifiedAs ((docItems d).get ⟨i, hi⟩) (os.get ⟨i, ho⟩) := by
  rw [extract_objects] at h
  cases hm : mapME objOf (docItems d) with
  | error err => rw [hm] at h; exact absurd h (by simp)
  | ok objects =>
    simp only [hm] at h
    have hlen := mapME_ok_length hm
    have hempty : objects.isEmpty = false := by
      cases hobj : objects with
      | nil =>
        rw [hobj] at hlen
        exact absurd (List.eq_nil_of_length_eq_zero hlen.symm) hne
      | cons b bs => rfl
    rw [hempty] at h
    simp only [Bool.false_eq_true, if_false] at h
    simp at h
    subst h
    exact ⟨hlen, fun i hi ho => objOf_classified (mapME_ok_get hm i hi ho)⟩

/-- Concrete instance for C5: the document with one table, one picture and
one paragraph yields exactly three objects with types table, image, text in
traversal order. -/
theorem C5_extractor_per_element_witness :
    docItems exampleTriDoc ≠ [] ∧
    extract_objects exampleTriDoc = .ok exampleTriObjs ∧
    exampleTriObjs.length = (docItems exampleTriDoc).length ∧
    exampleTriObjs.map ExObj.type = [.str "table", .str "image", .str "text"] := by
  have hxT : extract_page_and_bbox exTable = .ok (some 1, some [10, 20, 30, 40]) := by
    simp [extract_page_and_bbox, elGetattrD, scanProv, recPageVal,
      recBboxVal, pyOr, PyVal.truthy, PyVal.getattrD, PyVal.isNone,
      bbox_to_list, seq4, pyFloat, pyInt, ratTrunc, provOn1, exTable]
  have hxP : extract_page_and_bbox exPicture = .ok (some 1, some [50, 60, 70, 80]) := by
    simp [extract_page_and_bbox, elGetattrD, scanProv, recPageVal,
      recBboxVal, pyOr, PyVal.truthy, PyVal.getattrD, PyVal.isNone,
      bbox_to_list, seq4, pyFloat, pyInt, ratTrunc, provOn1, exPicture]
  have hxO : extract_page_and_bbox exPara = .ok (some 1, some [1, 2, 3, 4]) := by
    simp [extract_page_and_bbox, elGetattrD, scanProv, recPageVal,
      recBboxVal, pyOr, PyVal.truthy, PyVal.getattrD, PyVal.isNone,
      bbox_to_list, seq4, pyFloat, pyInt, ratTrunc, provOn1, exPara]
  have hoT : objOf exTable = .ok exObjT := by
    simp only [objOf, hxT]
    simp [exTable, tableText, round1List, exObjT]
    norm_num [round1, pyRound, rndHalfEven, ratFloor]
  have hoP : objOf exPicture = .ok exObjP := by
    simp only [objOf, hxP]
    simp [exPicture, elGetattrD, pyOr, PyVal.truthy, pictureB64, round1List, exObjP]
    norm_num [round1, pyRound, rndHalfEven, ratFloor]
  have hoO : objOf exPara = .ok exObjO := by
    simp only [objOf, hxO]
    simp [exPara, elGetattrD, pyOr, PyVal.truthy, pyStr, round1List, exObjO]
    norm_num [round1, pyRound, rndHalfEven, ratFloor]
  have hmain : extract_objects exampleTriDoc = .ok exampleTriObjs := by
    simp only [extract_objects, docItems, exampleTriDoc, mapME, hoT, hoP, hoO]
    simp [exampleTriObjs]
  exact ⟨by simp [exampleTriDoc, docItems], hmain,
    (C5_extractor_per_element exampleTriDoc exampleTriObjs
      (by simp [exampleTriDoc, docItems]) hmain).1,
    by simp [exampleTriObjs, exObjT, exObjP, exObjO]⟩

/-- C5 counterexample: a parsed document whose traversal yields zero
elements but whose dictionary export contains one block makes the extractor
emit one object, so the output is not one object per traversed element. -/
theorem C5_empty_doc_fallback_cex :
    extract_objects exampleEmptyDoc
      = .ok [{ type := .str "unknown", page := .none, bbox := Option.none,
               text := .str "", image_base64 := Option.none }] ∧
    docItems exampleEmptyDoc = [] ∧
    (1 : Nat) ≠ 0 :=
  ⟨rfl, rfl, by decide⟩

/-- C4 counterexample: a bbox occupying the full page in point-space with
PDF bottom-left origin is (left, top, right, bottom) = (0, height, width,
0); on a 612 by 792 point page the overlay builder maps it to
[x1, y1, x2, y2] = [0, 1, 1, 0], not to [0, 0, 1, 1] as the claim states. -/
theorem C4_full_page_cex :
    overlay_bbox 612 792 (some [0, 792, 612, 0]) = some [0, 1, 1, 0] ∧
    overlay_bbox 612 792 (some [0, 792, 612, 0]) ≠ some [0, 0, 1, 1] := by
  have hr0 : round4 0 = 0 := by norm_num [round4, pyRound, rndHalfEven, ratFloor]
  have hr1 : round4 1 = 1 := by norm_num [round4, pyRound, rndHalfEven, ratFloor]
  have h1 : overlay_bbox 612 792 (some [0, 792, 612, 0]) = some [0, 1, 1, 0] := by
    simp [overlay_bbox]
    norm_num [hr0, hr1]
  exact ⟨h1, by rw [h1]; simp⟩

/-- C4 amended: the overlay builder converts a point-space bbox (left, top,
right, bottom) to x1 = left/width, x2 = right/width, y1 = 1 - bottom/height,
y2 = 1 - top/height, rounded to four digits and emitted in the order
[x1, y1, x2, y2]; consequently a full-page bbox under the bottom-left
origin, (0, height, width, 0), maps to [0, 1, 1, 0] in that order (the
claimed [0, 0, 1, 1] would require top-left-origin coordinates). -/
theorem C4_overlay_formula (w h l t r b : Rat) (hw : w ≠ 0) (hh : h ≠ 0) :
    overlay_bbox w h (some [l, t, r, b])
      = some [round4 (l / w), round4 (1 - b / h), round4 (r / w), round4 (1 - t / h)] ∧
    overlay_bbox w h (some [0, h, w, 0]) = some [0, 1, 1, 0] := by
  have hr0 : round4 0 = 0 := by norm_num [round4, pyRound, rndHalfEven, ratFloor]
  have hr1 : round4 1 = 1 := by norm_num [round4, pyRound, rndHalfEven, ratFloor]
  constructor
  · simp [overlay_bbox]
  · simp [overlay_bbox, div_self hw, div_self hh, hr0, hr1]

/-- Concrete instance for C4 as amended: on a 612 by 792 point page the
general formula holds and the full-page bbox maps to [0, 1, 1, 0]. -/
theorem C4_overlay_formula_witness :
    overlay_bbox 612 792 (some [10, 20, 30, 40])
      = some [round4 (10 / 612), round4 (1 - 40 / 792),
              round4 (30 / 612), round4 (1 - 20 / 792)] ∧
    overlay_bbox 612 792 (some [0, 792, 612, 0]) = some [0, 1, 1, 0] :=
  C4_overlay_formula 612 792 10 20 30 40 (by norm_num) (by norm_num)

/-- C6: when the rasterization call fails with an exception, the pages list
degrades to empty and num_pages to 0, while the text and objects are still
returned; the request as a whole still succeeds with a 200 payload carrying
them. -/
theorem C6_raster_failure_degrades (text : String) (objects : List ExObj)
    (filename : String) :
    (convert_result text objects (.error ())).pages = [] ∧
    (convert_result text objects (.error ())).num_pages = 0 ∧
    (convert_result text objects (.error ())).text = text ∧
    (convert_result text objects (.error ())).objects = objects ∧
    parse_pdf ⟨"application/pdf", filename, true, "",
        .ok (convert_result text objects (.error ()))⟩
      = (.ok filename (convert_result text objects (.error ())),
         ⟨true, false, true, true⟩) := by
  refine ⟨rfl, rfl, rfl, rfl, ?_⟩
  simp [parse_pdf, finallyCleanup]

/-- C7 counterexample: when reading or writing the upload raises after the
temporary file has been created, the endpoint still produces a 500
response, but the created temp file still exists afterwards, contradicting
the claim that it is gone on every exit path. -/
theorem C7_read_failure_leak :
    parse_pdf ⟨"application/pdf", "a.pdf", false, "boom", .error "x"⟩
      = (.errResp 500 "Failed to process PDF: boom", ⟨true, true, false, false⟩) ∧
    (parse_pdf ⟨"application/pdf", "a.pdf", false, "boom", .error "x"⟩).2.tmpExists = true := by
  constructor
  · simp [parse_pdf, finallyCleanup]
  · simp [parse_pdf, finallyCleanup]

/-- C7 amended: on every request whose upload is fully read and written
into the temporary file, the file no longer exists after the response is
produced, on the success path and the handled processing-error path alike,
and the guarded deletion never raises; when the read or write itself raises
after the file was created, the file is leaked instead. -/
theorem C7_cleanup_on_written (env : ParseEnv) (h : env.readOk = true) :
    (parse_pdf env).2.tmpExists = false := by
  by_cases hc : env.content_type ≠ "application/pdf" ∧ env.content_type ≠ "application/octet-stream"
  · simp [parse_pdf, hc]
  · cases hcv : env.convert with
    | ok result => simp [parse_pdf, hc, h, hcv, finallyCleanup]
    | error msg => simp [parse_pdf, hc, h, hcv, finallyCleanup]

/-- Concrete instance for C7 as amended: a fully-read upload on the success
path leaves no temp file behind. -/
theorem C7_cleanup_on_written_witness :
    (parse_pdf ⟨"application/pdf", "a.pdf", true, "",
        .ok (convert_result "t" [] (.error ()))⟩).2.tmpExists = false :=
  C7_cleanup_on_written _ rfl

/-- C9: a declared content-type other than application/pdf and
application/octet-stream yields a 400 response with the documented error
body, creates no temporary file and never invokes the conversion pipeline. -/
theorem C9_content_type_reject (env : ParseEnv)
    (h1 : env.content_type ≠ "application/pdf")
    (h2 : env.content_type ≠ "application/octet-stream") :
    parse_pdf env = (.errResp 400 "File must be a PDF", ⟨false, false, false, false⟩) := by
  simp [parse_pdf, h1, h2]

/-- Concrete instance for C9: a text/plain upload is rejected with 400 and
no temp file or conversion. -/
theorem C9_content_type_reject_witness :
    parse_pdf ⟨"text/plain", "a.pdf", true, "", .error "x"⟩
      = (.errResp 400 "File must be a PDF", ⟨false, false, false, false⟩) :=
  C9_content_type_reject _ (by decide) (by decide)

end App
